import Mathlib

/-
  Shallow embedding of the smart_cow coordination core.

  Each definition below is translated from the C++ source file named in its
  doc comment.  Machine integers are modelled as Nat/Int; the only place
  where unsigned wrap-around matters (the uint64_t cutoff computation in
  DetectionBuffer::removeOldDetections) is modelled with an explicit
  mod-2^64 subtraction.  External effects (wall clock, serial I/O, child
  processes, file I/O, JSON parsing by json-glib) are passed in as explicit
  parameters.
-/

namespace SmartCow

/-! ## common/Types.h -/

/-- CameraType from src/common/Types.h. -/
inductive CameraType where
  | RGB
  | THERMAL
deriving DecidableEq, Repr

/-- BboxColor from src/common/Types.h. -/
inductive BboxColor where
  | GREEN
  | YELLOW
  | RED
  | BLUE
  | NONE
deriving DecidableEq, Repr

/-- BoundingBox from src/common/Types.h. -/
structure BoundingBox where
  x : Int
  y : Int
  width : Int
  height : Int
deriving DecidableEq, Repr

/-- DetectedObject from src/common/Types.h.  The `confidence : float`
field is not modelled (floating point is not used by any claim). -/
structure DetectedObject where
  classId : Int
  bbox : BoundingBox
  color : BboxColor
  hasBbox : Bool
deriving DecidableEq, Repr

/-- DetectionData from src/common/Types.h.  `timestamp` is uint64
nanoseconds since the Unix epoch, `frameNumber` uint32. -/
structure DetectionData where
  timestamp : Nat
  frameNumber : Nat
  cameraType : CameraType
  objects : List DetectedObject
deriving DecidableEq, Repr

/-! ## detection/DetectionBuffer.{h,cpp} -/

/-- 2^64, the modulus of uint64_t arithmetic. -/
def U64 : Nat := 18446744073709551616

/-- DetectionBuffer::DEFAULT_BUFFER_SIZE (DetectionBuffer.h line 12). -/
def DEFAULT_BUFFER_SIZE : Nat := 3600

/-- DetectionBuffer::BUFFER_DURATION_NS = 120 s (DetectionBuffer.h line 13). -/
def BUFFER_DURATION_NS : Nat := 120 * 1000000000

/-- The state of one DetectionBuffer: camera type, maxSize_, and the
deque buffer_ (head = front = oldest, push_back = append). -/
structure DetectionBufferState where
  cameraType : CameraType
  maxSize : Nat
  buffer : List DetectionData
deriving DecidableEq, Repr

/-- The uint64_t computation `cutoffTime = currentTime - BUFFER_DURATION_NS`
in DetectionBuffer::removeOldDetections (line 96): subtraction wraps
modulo 2^64 exactly as in C++. -/
def cutoffTime (now : Nat) : Nat := (now + (U64 - BUFFER_DURATION_NS)) % U64

/-- DetectionBuffer::removeOldDetections (lines 92-105): erases from the
front while the element's timestamp is `< cutoffTime`, stopping at the
first element that is not older than the cutoff. -/
def removeOldDetections (buf : List DetectionData) (now : Nat) : List DetectionData :=
  buf.dropWhile (fun d => d.timestamp < cutoffTime now)

/-- The local rewrite at the top of DetectionBuffer::addDetection
(lines 22-30): a zero timestamp is replaced by the current time and the
camera type is overwritten with the ring's camera. -/
def effectiveDetection (st : DetectionBufferState) (detection : DetectionData)
    (now : Nat) : DetectionData :=
  { detection with
    timestamp := if detection.timestamp = 0 then now else detection.timestamp
    cameraType := st.cameraType }

/-- DetectionBuffer::addDetection (lines 18-45): append the (rewritten)
frame, pop the front once if the size now exceeds maxSize_, then run
removeOldDetections.  `now` is the wall clock read during the call. -/
def addDetection (st : DetectionBufferState) (detection : DetectionData)
    (now : Nat) : DetectionBufferState :=
  let data := effectiveDetection st detection now
  let buf1 := st.buffer ++ [data]
  let buf2 := if st.maxSize < buf1.length then buf1.tail else buf1
  { st with buffer := removeOldDetections buf2 now }

/-- DetectionBuffer::getDetectionsInTimeRange (lines 47-63): pushes every
frame whose timestamp lies in the inclusive range onto the result vector,
scanning the deque front to back. -/
def getDetectionsInTimeRange (st : DetectionBufferState)
    (startTime endTime : Nat) : List DetectionData :=
  List.foldl
    (fun results d =>
      if startTime ≤ d.timestamp ∧ d.timestamp ≤ endTime then results ++ [d]
      else results)
    [] st.buffer

/-- DetectionBuffer::getLatestDetection (lines 65-74): returns false on an
empty buffer, otherwise copies buffer_.back(). -/
def getLatestDetection (st : DetectionBufferState) : Option DetectionData :=
  if st.buffer.isEmpty then none else st.buffer.getLast?

/-! ## webrtc/PeerManager.{h,cpp} -/

/-- One entry of the peers_ map.  `streamPort` and `commPort` are the
values stored in the WebRTCSenderProcess and read back by
PeerManager::removePeer via getStreamPort()/getCommPort(); for THERMAL
peers `streamPort` already includes the +1 offset (PeerManager.cpp
lines 76-81). -/
structure PeerEntry where
  peerId : String
  streamPort : Int
  commPort : Int
deriving DecidableEq, Repr

/-- The PeerManager state after init: maxPeers_, the two base ports, the
two allocation bit-vectors (each of length maxPeers_), and the peers_
map, modelled as a list with unique peerIds. -/
structure PeerManagerState where
  maxPeers : Nat
  baseStreamPort : Int
  commSocketBasePort : Int
  portAllocated : List Bool
  commSocketAllocated : List Bool
  peers : List PeerEntry
deriving DecidableEq, Repr

/-- PeerManager::init (PeerManager.cpp lines 22-36): resizes both
allocation vectors to maxPeers_, all false. -/
def initPeerManager (maxPeers : Nat) (baseStreamPort commSocketBasePort : Int) :
    PeerManagerState :=
  { maxPeers := maxPeers
    baseStreamPort := baseStreamPort
    commSocketBasePort := commSocketBasePort
    portAllocated := List.replicate maxPeers false
    commSocketAllocated := List.replicate maxPeers false
    peers := [] }

/-- The first-free-slot scan shared by allocateStreamPort and
allocateCommSocket: returns the index of the first false entry (if any)
and the vector with that entry set to true. -/
def allocFirst : List Bool → Option Nat × List Bool
  | [] => (none, [])
  | b :: rest =>
    if b then
      let r := allocFirst rest
      (r.1.map (· + 1), b :: r.2)
    else (some 0, true :: rest)

/-- PeerManager::allocateStreamPort (lines 347-358): first free index i is
reserved and the call returns baseStreamPort_ + i*2 (each peer uses
DEVICE_COUNT = 2 consecutive ports); -1 when no slot is free. -/
def allocateStreamPort (st : PeerManagerState) : Int × PeerManagerState :=
  match allocFirst st.portAllocated with
  | (none, l) => (-1, { st with portAllocated := l })
  | (some i, l) => (st.baseStreamPort + (i : Int) * 2, { st with portAllocated := l })

/-- PeerManager::releaseStreamPort (lines 360-367): index =
(port - baseStreamPort_) / 2 in C++ int arithmetic (truncated division),
cleared only when 0 <= index < size. -/
def releaseStreamPort (st : PeerManagerState) (port : Int) : PeerManagerState :=
  let index := Int.tdiv (port - st.baseStreamPort) 2
  if 0 ≤ index ∧ index < (st.portAllocated.length : Int) then
    { st with portAllocated := st.portAllocated.set index.toNat false }
  else st

/-- PeerManager::allocateCommSocket (lines 369-379). -/
def allocateCommSocket (st : PeerManagerState) : Int × PeerManagerState :=
  match allocFirst st.commSocketAllocated with
  | (none, l) => (-1, { st with commSocketAllocated := l })
  | (some i, l) => (st.commSocketBasePort + (i : Int), { st with commSocketAllocated := l })

/-- PeerManager::releaseCommSocket (lines 381-388). -/
def releaseCommSocket (st : PeerManagerState) (socket : Int) : PeerManagerState :=
  let index := socket - st.commSocketBasePort
  if 0 ≤ index ∧ index < (st.commSocketAllocated.length : Int) then
    { st with commSocketAllocated := st.commSocketAllocated.set index.toNat false }
  else st

/-- PeerManager::addPeer (lines 38-111).  `startOk` is the outcome of the
external child-process launch sender->start(...); everything else is the
code's own control flow: duplicate check, capacity check, the two
allocations, partial release when either allocation failed, the THERMAL
+1 stream-port offset handed to the child, and full release when the
child fails to start. -/
def addPeer (st : PeerManagerState) (peerId : String) (source : CameraType)
    (startOk : Bool) : Bool × PeerManagerState :=
  if st.peers.any (fun p => p.peerId == peerId) then (false, st)
  else if st.maxPeers ≤ st.peers.length then (false, st)
  else
    let r1 := allocateStreamPort st
    let streamPort := r1.1
    let r2 := allocateCommSocket r1.2
    let commSocket := r2.1
    let st2 := r2.2
    if streamPort < 0 ∨ commSocket < 0 then
      let st3 := if 0 ≤ streamPort then releaseStreamPort st2 streamPort else st2
      let st4 := if 0 ≤ commSocket then releaseCommSocket st3 commSocket else st3
      (false, st4)
    else
      let streamPortOffset : Int := if source = CameraType.THERMAL then 1 else 0
      if startOk then
        (true, { st2 with
                 peers := st2.peers ++ [⟨peerId, streamPort + streamPortOffset, commSocket⟩] })
      else
        (false, releaseCommSocket (releaseStreamPort st2 streamPort) commSocket)

/-- PeerManager::removePeer (lines 114-161): erase the map entry, then
release the stored stream and comm ports (each only when >= 0). -/
def removePeer (st : PeerManagerState) (peerId : String) : Bool × PeerManagerState :=
  match st.peers.find? (fun p => p.peerId == peerId) with
  | none => (false, st)
  | some p =>
    let st1 := { st with peers := st.peers.filter (fun q => !(q.peerId == peerId)) }
    let st2 := if 0 ≤ p.streamPort then releaseStreamPort st1 p.streamPort else st1
    let st3 := if 0 ≤ p.commPort then releaseCommSocket st2 p.commPort else st2
    (true, st3)

/-- The DEVICE_COUNT = 2 consecutive stream ports covered by slot `i`
(PeerManager.cpp line 353 comment and line 354). -/
def streamSlotPorts (baseStreamPort : Int) (i : Nat) : List Int :=
  [baseStreamPort + (i : Int) * 2, baseStreamPort + (i : Int) * 2 + 1]

/-! ## signaling/SignalingClient.cpp -/

/-- A JSON value as built by the json-glib JsonBuilder calls in
SignalingClient.cpp; object fields keep insertion order. -/
inductive Json where
  | jstr (s : String)
  | jint (n : Int)
  | jobj (fields : List (String × Json))
deriving Repr

/-- The serialized text of the JSON object built in
PeerManager::handlePeerMessage for a child-originated ICE candidate
(PeerManager.cpp lines 459-471): json-glib emits it compactly as
two fields, candidate first. -/
def candidatePayloadString (candidate : String) (sdpMLineIndex : Int) : String :=
  "\x7b\"candidate\":\"" ++ candidate ++ "\",\"sdpMLineIndex\":"
    ++ toString sdpMLineIndex ++ "\x7d"

/-- SignalingClient::sendToPeer (SignalingClient.cpp lines 136-232): the
outbound envelope for an open connection.  `parsed` stands for the
json-glib parse of `data`; it is consulted only in the "ice_candidate"
branch (line 181). -/
def sendToPeer (peerId ty data : String) (parsed : Option Json) : Json :=
  let rest :=
    if ty = "offer" ∨ ty = "answer" then
      [("sdp", Json.jobj [("type", Json.jstr ty), ("sdp", Json.jstr data)])]
    else if ty = "ice_candidate" then
      match parsed with
      | some j => [("ice", j)]
      | none =>
        [("ice", Json.jobj [("candidate", Json.jstr data), ("sdpMLineIndex", Json.jint 0)])]
    else
      [("data", Json.jstr data)]
  Json.jobj
    [("action", Json.jstr ty),
     ("peerType", Json.jstr "camera"),
     ("message", Json.jobj (("peer_id", Json.jstr peerId) :: rest))]

/-- SignalingClient::sendIceCandidate (lines 317-357): the candidate
envelope with the ice object and sdpMid = "video" ++ mlineindex. -/
def sendIceCandidate (peerId : String) (mlineindex : Int) (candidate : String) : Json :=
  Json.jobj
    [("action", Json.jstr "candidate"),
     ("peerType", Json.jstr "camera"),
     ("message", Json.jobj
       [("peer_id", Json.jstr peerId),
        ("ice", Json.jobj
          [("candidate", Json.jstr candidate),
           ("sdpMLineIndex", Json.jint mlineindex),
           ("sdpMid", Json.jstr ("video" ++ toString mlineindex))])])]

/-- PeerManager::handlePeerMessage, action == "candidate" branch
(PeerManager.cpp lines 449-480): rebuilds the candidate/sdpMLineIndex
object, serializes it, and hands the string to
SignalingClient::sendToPeer with type "candidate".  The parse result of
that string is passed through (it is not consulted, because "candidate"
is not "ice_candidate"). -/
def forwardChildCandidate (peerId candidate : String) (sdpMLineIndex : Int) : Json :=
  sendToPeer peerId "candidate" (candidatePayloadString candidate sdpMLineIndex)
    (some (Json.jobj
      [("candidate", Json.jstr candidate), ("sdpMLineIndex", Json.jint sdpMLineIndex)]))

/-- The ice-object shape asserted by the spec: candidate string, line
index, and sdpMid = "video" concatenated with the line index. -/
def iceClaimShape : Json → Bool
  | Json.jobj [(k1, Json.jstr _), (k2, Json.jint i), (k3, Json.jstr m)] =>
      k1 == "candidate" && k2 == "sdpMLineIndex" && k3 == "sdpMid"
        && m == "video" ++ toString i
  | _ => false

/-- The message shape asserted by the spec: peer_id plus an ice object. -/
def messageClaimShape : Json → Bool
  | Json.jobj [(k1, Json.jstr _), (k2, ice)] =>
      k1 == "peer_id" && k2 == "ice" && iceClaimShape ice
  | _ => false

/-- The envelope shape asserted by the spec for every outbound
"candidate" frame.  Written from the spec for comparison against the
builders above. -/
def candidateClaimShape : Json → Bool
  | Json.jobj [(k1, Json.jstr a), (k2, Json.jstr p), (k3, m)] =>
      k1 == "action" && a == "candidate" && k2 == "peerType" && p == "camera"
        && k3 == "message" && messageClaimShape m
  | _ => false

/-! ## control/PTZController.{h,cpp} -/

/-- PTZController::Direction (PTZController.h lines 14-21). -/
inductive Direction where
  | LEFT
  | RIGHT
  | UP
  | DOWN
  | ZOOM_IN
  | ZOOM_OUT
deriving DecidableEq, Repr

/-- PTZController::calculateChecksum (PTZController.cpp lines 459-465):
a uint8_t running sum over the given bytes, i.e. addition mod 256. -/
def calculateChecksum (data : List Nat) : Nat :=
  data.foldl (fun sum b => (sum + b) % 256) 0

/-- Bytes 0-9 of the frame assembled by PTZController::sendMoveCommand
(lines 59-104): sync, addr, cmdH, cmdL (0x41 when speed > 0 else 0x01),
length 0x05, the direction opcode bytes, the speed byte (uint8_t
truncation of the int speed) at the position reached by the len counter,
and zero padding from the initial memset. -/
def moveFrameBody (dir : Direction) (speed : Nat) : List Nat :=
  if 0 < speed then
    match dir with
    | Direction.LEFT => [0x96, 0x00, 0x00, 0x41, 0x05, 0x40, speed % 256, 0, 0, 0]
    | Direction.RIGHT => [0x96, 0x00, 0x00, 0x41, 0x05, 0x80, speed % 256, 0, 0, 0]
    | Direction.UP => [0x96, 0x00, 0x00, 0x41, 0x05, 0x10, 0x00, speed % 256, 0, 0]
    | Direction.DOWN => [0x96, 0x00, 0x00, 0x41, 0x05, 0x20, 0x00, speed % 256, 0, 0]
    | Direction.ZOOM_IN => [0x96, 0x00, 0x00, 0x41, 0x05, 0x04, 0x00, 0x00, speed % 256, 0]
    | Direction.ZOOM_OUT => [0x96, 0x00, 0x00, 0x41, 0x05, 0x08, 0x00, 0x00, speed % 256, 0]
  else [0x96, 0x00, 0x00, 0x01, 0x05, 0, 0, 0, 0, 0]

/-- The full 11-byte frame written to the serial line by
PTZController::sendMoveCommand (line 107: data[10] =
calculateChecksum(data, 10)). -/
def sendMoveCommandFrame (dir : Direction) (speed : Nat) : List Nat :=
  moveFrameBody dir speed ++ [calculateChecksum (moveFrameBody dir speed)]

/-- PTZController::PTZPosition (PTZController.h lines 32-35): the isSet
flag and the stored position bytes (the data array; only the first 10
bytes are ever written or read). -/
structure PTZPosition where
  isSet : Bool
  data : List Nat
deriving DecidableEq, Repr

/-- The two preset tables of PTZController (PTZController.h lines 78-79):
ptzPositions_[12] and ranchPositions_[32]. -/
structure PTZState where
  ptzPositions : List PTZPosition
  ranchPositions : List PTZPosition
deriving DecidableEq, Repr

/-- PTZController.h line 28. -/
def MAX_PTZ_PRESET : Nat := 12

/-- PTZController.h line 29. -/
def MAX_RANCH_POS : Nat := 32

/-- The ternary `isAutoMode ? ptzPositions_[index] : ptzPositions_[index]`
appearing verbatim in PTZController::moveToPTZPosition (line 198) and
PTZController::updatePTZPosition (line 253): both branches name the same
table. -/
def selectPresetTable (st : PTZState) (isAutoMode : Bool) : List PTZPosition :=
  if isAutoMode then st.ptzPositions else st.ptzPositions

/-- Fixed-size-array read of 10 position bytes (memcpy from the data
array, which is zero-initialized at construction). -/
def read10 (data : List Nat) : List Nat :=
  (data ++ List.replicate 10 0).take 10

/-- PTZController::updatePTZPosition (lines 248-259): bounds and null
check, then stores 10 bytes and the isSet flag into the slot of the
table picked by selectPresetTable. -/
def updatePTZPosition (st : PTZState) (index : Int) (posData : Option (List Nat))
    (isAutoMode : Bool) : Bool × PTZState :=
  match posData with
  | none => (false, st)
  | some pd =>
    if index < 0 ∨ (MAX_PTZ_PRESET : Int) ≤ index then (false, st)
    else
      (true, { st with
               ptzPositions :=
                 (selectPresetTable st isAutoMode).set index.toNat
                   ⟨true, read10 pd⟩ })

/-- PTZController::moveToPTZPosition (lines 192-246): bounds check, isSet
check, then the 17-byte go-to-position frame: 5 header bytes, 10 position
bytes, the speed byte (0x20 in auto mode, 0x40 otherwise, line 225), and
the checksum over bytes 0-15 (line 228).  The serial write and response
are external; the function yields the frame that would be written. -/
def moveToPTZPosition (st : PTZState) (index : Int) (isAutoMode : Bool) :
    Option (List Nat) :=
  if index < 0 ∨ (MAX_PTZ_PRESET : Int) ≤ index then none
  else
    let pos := (selectPresetTable st isAutoMode).getD index.toNat ⟨false, []⟩
    if pos.isSet then
      let body := [0x96, 0x00, 0x01, 0x01, 0x0F] ++ read10 pos.data
        ++ [if isAutoMode then 0x20 else 0x40]
      some (body ++ [calculateChecksum body])
    else none

/-! ## control/PTZController.cpp: auto move -/

/-- The auto-move fields of PTZController (PTZController.h lines 82-85):
autoMoveRunning_, autoMoveSequence_, autoMoveDelay_. -/
structure AutoMoveState where
  running : Bool
  sequence : List Int
  delay : Int
deriving DecidableEq, Repr

/-- One std::isspace character class member as used by std::stoi. -/
def isCxxSpace (c : Char) : Bool :=
  c = ' ' || c = '\t' || c = '\n' || c = Char.ofNat 11 || c = Char.ofNat 12 || c = '\r'

/-- Decimal digit accumulation. -/
def digitsToNat : List Char → Nat → Nat
  | [], acc => acc
  | c :: rest, acc => digitsToNat rest (acc * 10 + (c.toNat - '0'.toNat))

/-- std::stoi on a token: skip leading whitespace, optional sign, at
least one digit, trailing characters ignored; none models the
std::invalid_argument exception.  (Out-of-range values are not modelled;
the claims use small inputs.) -/
def parseIntCxx (cs : List Char) : Option Int :=
  let cs1 := cs.dropWhile isCxxSpace
  match cs1 with
  | '-' :: rest =>
    let ds := rest.takeWhile Char.isDigit
    if ds.isEmpty then none else some (-(digitsToNat ds 0 : Int))
  | '+' :: rest =>
    let ds := rest.takeWhile Char.isDigit
    if ds.isEmpty then none else some ((digitsToNat ds 0 : Int))
  | _ =>
    let ds := cs1.takeWhile Char.isDigit
    if ds.isEmpty then none else some ((digitsToNat ds 0 : Int))

/-- Comma splitting of the character list, every delimiter producing a
token boundary. -/
def splitCommaAux : List Char → List Char → List (List Char)
  | [], acc => [acc.reverse]
  | c :: rest, acc =>
    if c = ',' then acc.reverse :: splitCommaAux rest []
    else splitCommaAux rest (c :: acc)

/-- The tokens produced by the `while (std::getline(iss, token, ','))`
loop in PTZController::parseAutoMoveSequence (lines 446-454): like a
plain comma split, except that a final empty token is not produced
(getline fails when it reaches end of input having extracted nothing). -/
def getlineTokens (s : String) : List (List Char) :=
  let t := splitCommaAux s.toList []
  if t.getLast? = some [] then t.dropLast else t

/-- PTZController::parseAutoMoveSequence (lines 439-457): stoi each
token (any failure aborts with false), succeed iff at least one value
was parsed. -/
def parseAutoMoveSequence (s : String) : Option (List Int) :=
  match (getlineTokens s).mapM parseIntCxx with
  | none => none
  | some positions => if positions.isEmpty then none else some positions

/-- PTZController::startAutoMove (lines 325-354): refuses while a tour is
already running, parses the sequence, requires at least 2 values, takes
the final value as the dwell and the rest as the preset cycle, and
starts the worker. -/
def startAutoMove (st : AutoMoveState) (seq : String) : Bool × AutoMoveState :=
  if st.running then (false, st)
  else
    match parseAutoMoveSequence seq with
    | none => (false, st)
    | some positions =>
      if positions.length < 2 then (false, st)
      else (true, { running := true
                    sequence := positions.dropLast
                    delay := positions.getLastD 0 })

/-- PTZController::stopAutoMove (lines 356-368): clears the running flag
(and joins the worker); no-op when not running. -/
def stopAutoMove (st : AutoMoveState) : AutoMoveState :=
  if st.running then { st with running := false } else st

/-! ## utils/DeviceSetting.{h,cpp} and main.cpp pipe commands -/

/-- DeviceSetting::Settings (DeviceSetting.h lines 10-37); the unused
recordOnOff/analysisOnOff duplicates are omitted. -/
structure Settings where
  recordStatus : Bool
  analysisStatus : Bool
  nvInterval : Int
  optFlowApply : Bool
  resnet50Apply : Bool
  enableEventNotify : Bool
  tempCorrection : Int
  ptzStatus : String
  colorPalette : Int
deriving DecidableEq, Repr

/-- The DeviceSetting singleton state: settings_, changed_, currentFile_. -/
structure DeviceSettingState where
  settings : Settings
  changed : Bool
  currentFile : String
deriving DecidableEq, Repr

/-- DeviceSetting::setRecordStatus (DeviceSetting.cpp lines 132-138):
mutate and raise the change flag only when the value differs. -/
def setRecordStatus (st : DeviceSettingState) (status : Bool) : DeviceSettingState :=
  if st.settings.recordStatus ≠ status then
    { st with settings := { st.settings with recordStatus := status }, changed := true }
  else st

/-- DeviceSetting::setAnalysisStatus (lines 140-146). -/
def setAnalysisStatus (st : DeviceSettingState) (status : Bool) : DeviceSettingState :=
  if st.settings.analysisStatus ≠ status then
    { st with settings := { st.settings with analysisStatus := status }, changed := true }
  else st

/-- DeviceSetting::setNvInterval (lines 148-154). -/
def setNvInterval (st : DeviceSettingState) (interval : Int) : DeviceSettingState :=
  if st.settings.nvInterval ≠ interval then
    { st with settings := { st.settings with nvInterval := interval }, changed := true }
  else st

/-- DeviceSetting::save(filename) (DeviceSetting.cpp lines 69-114):
`openOk` is the outcome of opening the output file (serialization itself
does not fail); on success the file is written, currentFile_ is updated
for a non-empty filename, and changed_ is cleared; on failure the state
is untouched and false is returned. -/
def save (st : DeviceSettingState) (filename : String) (openOk : Bool) :
    Bool × DeviceSettingState :=
  if openOk then
    (true, { st with
             changed := false
             currentFile := if filename ≠ "" then filename else st.currentFile })
  else (false, st)

/-- main.cpp handlePipeCommand, "record_start" branch (lines 179-188):
writes recordStatus through DeviceSetting::getMutable(), bypassing the
setter (the recorder child process start is external). -/
def pipeRecordStart (st : DeviceSettingState) : DeviceSettingState :=
  { st with settings := { st.settings with recordStatus := true } }

/-- main.cpp handlePipeCommand, "record_stop" branch (lines 189-194). -/
def pipeRecordStop (st : DeviceSettingState) : DeviceSettingState :=
  { st with settings := { st.settings with recordStatus := false } }

/-- main.cpp handlePipeCommand, "analysis_on" branch (lines 197-200). -/
def pipeAnalysisOn (st : DeviceSettingState) : DeviceSettingState :=
  { st with settings := { st.settings with analysisStatus := true, nvInterval := 0 } }

/-- main.cpp handlePipeCommand, "analysis_off" branch (lines 201-205):
nvInterval is set to INT32_MAX. -/
def pipeAnalysisOff (st : DeviceSettingState) : DeviceSettingState :=
  { st with settings := { st.settings with analysisStatus := false, nvInterval := 2147483647 } }

/-! ## Concrete scenario states used by the closed theorems -/

/-- An empty RGB ring with the default capacity. -/
def emptyRgbRing : DetectionBufferState := ⟨CameraType.RGB, DEFAULT_BUFFER_SIZE, []⟩

/-- The spec scenario ring: frames at t = 1 s, 2 s, 3 s inserted into the
RGB ring; the wall clock during the inserts reads 120 s (any clock with
cutoff at or below the oldest frame behaves identically). -/
def c2ring : DetectionBufferState :=
  addDetection
    (addDetection
      (addDetection emptyRgbRing ⟨1000000000, 1, CameraType.RGB, []⟩ 120000000000)
      ⟨2000000000, 2, CameraType.RGB, []⟩ 120000000000)
    ⟨3000000000, 3, CameraType.RGB, []⟩ 120000000000

/-- The peer-lifecycle scenario: max_peers=2, stream_base_port=5000,
comm_base_port=6000 (device_count is the fixed DEVICE_COUNT=2). -/
def c4st0 : PeerManagerState := initPeerManager 2 5000 6000

/-- After add_peer("A", RGB). -/
def c4rA : Bool × PeerManagerState := addPeer c4st0 "A" CameraType.RGB true

/-- After add_peer("B", Thermal). -/
def c4rB : Bool × PeerManagerState := addPeer c4rA.2 "B" CameraType.THERMAL true

/-- After remove_peer("A"). -/
def c4rR : Bool × PeerManagerState := removePeer c4rB.2 "A"

/-- After add_peer("C", RGB). -/
def c4rC : Bool × PeerManagerState := addPeer c4rR.2 "C" CameraType.RGB true

/-- A PeerManager state that already contains peer "A" (used to exhibit a
failing add_peer call). -/
def c3dupState : PeerManagerState :=
  { maxPeers := 2
    baseStreamPort := 5000
    commSocketBasePort := 6000
    portAllocated := [true, false]
    commSocketAllocated := [true, false]
    peers := [⟨"A", 5000, 6000⟩] }

/-- An auto-move state with a tour currently running. -/
def c8running : AutoMoveState := ⟨true, [3], 10⟩

/-- Default device settings (DeviceSetting.h lines 32-36) with a clear
change flag and the default settings file name. -/
def c9st : DeviceSettingState :=
  ⟨⟨false, false, 0, false, false, true, 0, "off", 0⟩, false, "device_setting.json"⟩

/-- A two-frame sorted ring used to witness the detection-ring invariant
theorem: capacity 2, frames at 100 s and 150 s, clock at 200 s. -/
def c1wRing : DetectionBufferState :=
  ⟨CameraType.RGB, 2,
    [⟨100000000000, 1, CameraType.RGB, []⟩, ⟨150000000000, 2, CameraType.RGB, []⟩]⟩

/-- The frame inserted by the witness: t = 180 s. -/
def c1wFrame : DetectionData := ⟨180000000000, 3, CameraType.RGB, []⟩

/-!
## Theorems

Helper lemmas come first; the claim theorems follow, one per claim.
-/

/-- The result accumulator of the query loop only ever grows at the end:
folding the push-if-in-range step equals appending the filtered list. -/
theorem foldl_push_eq_filter (a b : Nat) :
    ∀ (l : List DetectionData) (acc : List DetectionData),
      List.foldl
        (fun results d =>
          if a ≤ d.timestamp ∧ d.timestamp ≤ b then results ++ [d] else results)
        acc l
      = acc ++ l.filter (fun d => decide (a ≤ d.timestamp ∧ d.timestamp ≤ b)) := by
  intro l
  induction l with
  | nil => intro acc; simp
  | cons hd tl ih =>
    intro acc
    by_cases h : a ≤ hd.timestamp ∧ hd.timestamp ≤ b
    · simp only [List.foldl_cons, if_pos h, ih, List.filter_cons,
        decide_eq_true_eq, h, if_pos, List.append_assoc, List.singleton_append]
      simp [h]
    · simp only [List.foldl_cons, if_neg h, ih, List.filter_cons]
      simp [h]

/-- C2: query_range returns exactly the frames whose timestamp lies in
the inclusive range, in insertion order (it is the order-preserving
filter of the ring); latest() is the most recently inserted frame and is
none exactly on the empty ring; and the spec scenario (frames at 1 s,
2 s, 3 s; query [1.5 s, 2.5 s]) yields exactly the 2 s frame. -/
theorem detectionRing_query_latest :
    (∀ (st : DetectionBufferState) (a b : Nat),
      getDetectionsInTimeRange st a b =
        st.buffer.filter (fun d => decide (a ≤ d.timestamp ∧ d.timestamp ≤ b)))
    ∧ (∀ st : DetectionBufferState, getLatestDetection st = st.buffer.getLast?)
    ∧ (∀ st : DetectionBufferState, getLatestDetection st = none ↔ st.buffer = [])
    ∧ getDetectionsInTimeRange c2ring 1500000000 2500000000
        = [⟨2000000000, 2, CameraType.RGB, []⟩] := by
  refine ⟨?_, ?_, ?_, by decide⟩
  · intro st a b
    simpa using foldl_push_eq_filter a b st.buffer []
  · intro st
    cases h : st.buffer with
    | nil => simp [getLatestDetection, h]
    | cons hd tl => simp [getLatestDetection, h]
  · intro st
    cases h : st.buffer with
    | nil => simp [getLatestDetection, h]
    | cons hd tl => simp [getLatestDetection, h]

/-- C6 counterexample: move(Right, 0x40) does not emit the spec's frame
96 00 00 41 05 80 00 00 00 00 C6 (the spec frame drops the speed byte
and its checksum does not match its own bytes). -/
theorem moveRight_frame_counterexample :
    sendMoveCommandFrame Direction.RIGHT 0x40
      ≠ [0x96, 0x00, 0x00, 0x41, 0x05, 0x80, 0x00, 0x00, 0x00, 0x00, 0xC6] := by
  decide

/-- C6 amended: move(Right, 0x40) emits exactly
96 00 00 41 05 80 40 00 00 00 9C: the speed byte 0x40 is written at
index 6 and the checksum of bytes 0-9 is 0x9C. -/
theorem moveRight_frame :
    sendMoveCommandFrame Direction.RIGHT 0x40
      = [0x96, 0x00, 0x00, 0x41, 0x05, 0x80, 0x40, 0x00, 0x00, 0x00, 0x9C] := by
  decide

/-- The uint8_t running sum of calculateChecksum equals the plain sum
modulo 256. -/
theorem calculateChecksum_eq_sum_mod (l : List Nat) :
    calculateChecksum l = l.sum % 256 := by
  have aux : ∀ (t : List Nat) (x : Nat),
      t.foldl (fun sum b => (sum + b) % 256) (x % 256) = (x + t.sum) % 256 := by
    intro t
    induction t with
    | nil => intro x; simp
    | cons hd tl ih =>
      intro x
      simp only [List.foldl_cons, List.sum_cons]
      rw [Nat.mod_add_mod, ih (x + hd)]
      ring_nf
  have := aux l 0
  simpa [calculateChecksum] using this

/-- The move-frame body is always 10 bytes long. -/
theorem moveFrameBody_length (dir : Direction) (speed : Nat) :
    (moveFrameBody dir speed).length = 10 := by
  unfold moveFrameBody
  by_cases h : 0 < speed
  · simp only [if_pos h]
    cases dir <;> rfl
  · simp only [if_neg h]
    rfl

/-- C7: every frame generated by sendMoveCommand is 11 bytes and its
final byte equals the sum of bytes 0-9 modulo 256, for each of the six
directions and every speed. -/
theorem moveFrame_checksum (dir : Direction) (speed : Nat) :
    (sendMoveCommandFrame dir speed).length = 11
    ∧ (sendMoveCommandFrame dir speed)[10]?
        = some (((sendMoveCommandFrame dir speed).take 10).sum % 256) := by
  have hlen := moveFrameBody_length dir speed
  constructor
  · simp [sendMoveCommandFrame, hlen]
  · have htake : (sendMoveCommandFrame dir speed).take 10 = moveFrameBody dir speed := by
      unfold sendMoveCommandFrame
      exact List.take_left' hlen
    rw [htake]
    have hget : (sendMoveCommandFrame dir speed)[10]?
        = some (calculateChecksum (moveFrameBody dir speed)) := by
      unfold sendMoveCommandFrame
      rw [List.getElem?_append_right (by omega)]
      simp [hlen]
    rw [hget, calculateChecksum_eq_sum_mod]

/-- C8 counterexample: with a tour already running, start_auto_tour of
the valid sequence "1,2,5" fails and leaves the running tour untouched,
instead of stopping it and starting the new tour. -/
theorem startAutoMove_whileRunning_counterexample :
    parseAutoMoveSequence "1,2,5" = some [1, 2, 5]
    ∧ startAutoMove c8running "1,2,5" = (false, c8running)
    ∧ (startAutoMove c8running "1,2,5").2.running = true := by
  refine ⟨by decide, by decide, by decide⟩

/-- C8 amended: while an auto-tour is running, startAutoMove returns
false and leaves the whole auto-move state (including the running tour)
unchanged, whatever the new sequence is; a caller must stop the tour
explicitly before starting another. -/
theorem startAutoMove_whileRunning (st : AutoMoveState) (seq : String)
    (h : st.running = true) :
    startAutoMove st seq = (false, st) := by
  simp [startAutoMove, h]

/-- Witness for the amended C8 theorem at a concrete running state. -/
theorem startAutoMove_whileRunning_witness :
    c8running.running = true ∧ startAutoMove c8running "1,2,5" = (false, c8running) :=
  ⟨rfl, startAutoMove_whileRunning c8running "1,2,5" rfl⟩

/-- C9 counterexample: the Command Pipe command record_start mutates the
settings (record status flips from off to on) but leaves the change flag
clear, because handlePipeCommand writes through getMutable() and
bypasses the setter. -/
theorem pipeRecordStart_flag_counterexample :
    (pipeRecordStart c9st).settings.recordStatus = true
    ∧ c9st.settings.recordStatus = false
    ∧ (pipeRecordStart c9st).changed = false := by
  refine ⟨by decide, by decide, by decide⟩

/-- C9 amended: mutations through the DeviceSetting setter methods set
the change flag exactly when the stored value actually changes, and a
successful save clears the flag (a failed save leaves the state
untouched); but the Command Pipe commands record_start, record_stop,
analysis_on and analysis_off mutate the settings directly through
getMutable() and never touch the change flag. -/
theorem deviceSetting_change_flag (st : DeviceSettingState) (b : Bool)
    (iv : Int) (fn : String) :
    (setRecordStatus st b).changed = (st.changed || (st.settings.recordStatus != b))
    ∧ (setAnalysisStatus st b).changed = (st.changed || (st.settings.analysisStatus != b))
    ∧ (setNvInterval st iv).changed = (st.changed || (st.settings.nvInterval != iv))
    ∧ (save st fn true).2.changed = false
    ∧ (save st fn false).2 = st
    ∧ (pipeRecordStart st).changed = st.changed
    ∧ (pipeRecordStop st).changed = st.changed
    ∧ (pipeAnalysisOn st).changed = st.changed
    ∧ (pipeAnalysisOff st).changed = st.changed
    ∧ (pipeRecordStart st).settings.recordStatus = true
    ∧ (pipeRecordStop st).settings.recordStatus = false
    ∧ (pipeAnalysisOn st).settings.analysisStatus = true
    ∧ (pipeAnalysisOff st).settings.analysisStatus = false := by
  refine ⟨?_, ?_, ?_, rfl, rfl, rfl, rfl, rfl, rfl, rfl, rfl, rfl, rfl⟩
  · by_cases h : st.settings.recordStatus = b <;> simp [setRecordStatus, h]
  · by_cases h : st.settings.analysisStatus = b <;> simp [setAnalysisStatus, h]
  · by_cases h : st.settings.nvInterval = iv <;> simp [setNvInterval, h]

/-- C4: the peer-lifecycle scenario.  add_peer("A", RGB) reserves stream
slot 0 (ports 5000 and 5001) with the child given 5000 and comm port
6000; add_peer("B", Thermal) reserves slot 1 (ports 5002 and 5003) with
the child given 5003 and comm port 6001; after remove_peer("A"),
add_peer("C", RGB) reserves slot 0 (ports 5000 and 5001) again under the
lowest-free-first scan. -/
theorem peerLifecycle_scenario :
    c4rA.1 = true
    ∧ c4rA.2.portAllocated = [true, false]
    ∧ c4rA.2.commSocketAllocated = [true, false]
    ∧ c4rA.2.peers = [⟨"A", 5000, 6000⟩]
    ∧ streamSlotPorts 5000 0 = [5000, 5001]
    ∧ c4rB.1 = true
    ∧ c4rB.2.portAllocated = [true, true]
    ∧ c4rB.2.commSocketAllocated = [true, true]
    ∧ c4rB.2.peers = [⟨"A", 5000, 6000⟩, ⟨"B", 5003, 6001⟩]
    ∧ streamSlotPorts 5000 1 = [5002, 5003]
    ∧ c4rR.1 = true
    ∧ c4rR.2.portAllocated = [false, true]
    ∧ c4rR.2.commSocketAllocated = [false, true]
    ∧ c4rR.2.peers = [⟨"B", 5003, 6001⟩]
    ∧ c4rC.1 = true
    ∧ c4rC.2.portAllocated = [true, true]
    ∧ c4rC.2.peers = [⟨"B", 5003, 6001⟩, ⟨"C", 5000, 6000⟩] := by
  decide

/-- C5 counterexample: the candidate frame produced by forwarding a
child-originated candidate upstream (PeerManager::handlePeerMessage into
SignalingClient::sendToPeer with type "candidate") does not carry the
claimed envelope: its message holds the serialized candidate under a
"data" string field and has no ice object and no sdpMid, because
sendToPeer builds the ice object only for the type string
"ice_candidate". -/
theorem candidateForward_counterexample :
    candidateClaimShape (forwardChildCandidate "X" "c" 0) = false
    ∧ forwardChildCandidate "X" "c" 0
      = Json.jobj
          [("action", Json.jstr "candidate"),
           ("peerType", Json.jstr "camera"),
           ("message", Json.jobj
             [("peer_id", Json.jstr "X"),
              ("data", Json.jstr "\x7b\"candidate\":\"c\",\"sdpMLineIndex\":0\x7d")])] := by
  exact ⟨by decide, rfl⟩

/-- C5 amended: candidate frames built by
SignalingClient::sendIceCandidate carry the claimed envelope (message =
peer_id plus ice with candidate, sdpMLineIndex and sdpMid =
"video" ++ index); candidate frames produced by forwarding a
child-originated candidate through sendToPeer instead carry message =
peer_id plus a "data" field holding the serialized candidate JSON as a
string, with no ice object. -/
theorem candidate_frame_shapes (peerId cand : String) (idx : Int) :
    candidateClaimShape (sendIceCandidate peerId idx cand) = true
    ∧ forwardChildCandidate peerId cand idx
      = Json.jobj
          [("action", Json.jstr "candidate"),
           ("peerType", Json.jstr "camera"),
           ("message", Json.jobj
             [("peer_id", Json.jstr peerId),
              ("data", Json.jstr (candidatePayloadString cand idx))])] := by
  constructor
  · simp [sendIceCandidate, candidateClaimShape, messageClaimShape, iceClaimShape]
  · rfl

/-- A failed first-free scan leaves the bit-vector unchanged. -/
theorem allocFirst_none (l : List Bool) (l2 : List Bool)
    (h : allocFirst l = (none, l2)) : l2 = l := by
  induction l generalizing l2 with
  | nil =>
    simp [allocFirst] at h
    exact h
  | cons b rest ih =>
    rcases hr : allocFirst rest with ⟨o1, lr⟩
    by_cases hb : b
    · simp [allocFirst, hb, hr] at h
      obtain ⟨h1, h2⟩ := h
      rcases o1 with _ | j
      · rw [← h2, ih lr (by rw [hr]), hb]
      · simp at h1
    · simp [allocFirst, hb] at h

/-- A successful first-free scan at index i: the vector was false at i,
i is in range, and the result is the vector with i set to true. -/
theorem allocFirst_some (l : List Bool) (i : Nat) (l2 : List Bool)
    (h : allocFirst l = (some i, l2)) :
    l2 = l.set i true ∧ l[i]? = some false ∧ i < l.length := by
  induction l generalizing i l2 with
  | nil => simp [allocFirst] at h
  | cons b rest ih =>
    rcases hr : allocFirst rest with ⟨o1, lr⟩
    by_cases hb : b
    · simp [allocFirst, hb, hr] at h
      obtain ⟨h1, h2⟩ := h
      rcases o1 with _ | j
      · simp at h1
      · simp at h1
        obtain ⟨hl, hget, hlen⟩ := ih j lr (by rw [hr])
        subst h1
        refine ⟨?_, ?_, ?_⟩
        · rw [← h2, hl, hb]
          rfl
        · simpa using hget
        · simpa using hlen
    · have hb0 : b = false := by simpa using hb
      simp [allocFirst, hb] at h
      obtain ⟨h1, h2⟩ := h
      subst hb0
      refine ⟨?_, ?_, ?_⟩
      · rw [← h2, ← h1]
        rfl
      · rw [← h1]
        simp
      · rw [← h1]
        simp

/-- Setting an index back to the value it already holds is a no-op. -/
theorem set_getElem_self (l : List Bool) (i : Nat) (b : Bool)
    (h : l[i]? = some b) : l.set i b = l := by
  induction l generalizing i with
  | nil => simp at h
  | cons hd tl ih =>
    cases i with
    | zero =>
      simp at h
      rw [h]
      rfl
    | succ n =>
      simp at h
      simpa [List.set] using ih n h

/-- The C++ int arithmetic recovering a stream slot index from its port:
(base + i*2 - base) / 2 with truncating division is i. -/
theorem tdiv_offset (B : Int) (i : Nat) :
    Int.tdiv ((B + (i : Int) * 2) - B) 2 = (i : Int) := by
  have h1 : (B + (i : Int) * 2) - B = ((i * 2 : Nat) : Int) := by push_cast; ring
  have h2 : Int.tdiv (((i * 2 : Nat)) : Int) 2 = (((i * 2) / 2 : Nat) : Int) := rfl
  rw [h1, h2, Nat.mul_div_cancel i (by norm_num)]

/-- releaseStreamPort with the port handed out by a successful
allocation restores the original bit-vector (whatever happened to the
other fields meanwhile). -/
theorem releaseStreamPort_restore (st st2 : PeerManagerState) (i : Nat) (l1 : List Bool)
    (h : allocFirst st.portAllocated = (some i, l1))
    (hpa : st2.portAllocated = l1)
    (hbase : st2.baseStreamPort = st.baseStreamPort) :
    releaseStreamPort st2 (st.baseStreamPort + (i : Int) * 2)
      = { st2 with portAllocated := st.portAllocated } := by
  obtain ⟨hl, hget, hlen⟩ := allocFirst_some _ _ _ h
  have hlen1 : st2.portAllocated.length = st.portAllocated.length := by
    rw [hpa, hl]
    simp
  unfold releaseStreamPort
  rw [hbase, tdiv_offset]
  rw [if_pos ⟨by positivity, by rw [hlen1]; exact_mod_cast hlen⟩]
  have : st2.portAllocated.set ((i : Int)).toNat false = st.portAllocated := by
    rw [Int.toNat_natCast, hpa, hl, List.set_set]
    exact set_getElem_self _ _ _ hget
  rw [this]

/-- releaseCommSocket with the socket handed out by a successful
allocation restores the original bit-vector. -/
theorem releaseCommSocket_restore (st st2 : PeerManagerState) (i : Nat) (l1 : List Bool)
    (h : allocFirst st.commSocketAllocated = (some i, l1))
    (hpa : st2.commSocketAllocated = l1)
    (hbase : st2.commSocketBasePort = st.commSocketBasePort) :
    releaseCommSocket st2 (st.commSocketBasePort + (i : Int))
      = { st2 with commSocketAllocated := st.commSocketAllocated } := by
  obtain ⟨hl, hget, hlen⟩ := allocFirst_some _ _ _ h
  have hlen1 : st2.commSocketAllocated.length = st.commSocketAllocated.length := by
    rw [hpa, hl]
    simp
  unfold releaseCommSocket
  rw [hbase]
  have hidx : st.commSocketBasePort + (i : Int) - st.commSocketBasePort = (i : Int) := by ring
  rw [hidx]
  rw [if_pos ⟨by positivity, by rw [hlen1]; exact_mod_cast hlen⟩]
  have : st2.commSocketAllocated.set ((i : Int)).toNat false = st.commSocketAllocated := by
    rw [Int.toNat_natCast, hpa, hl, List.set_set]
    exact set_getElem_self _ _ _ hget
  rw [this]

/-- C3: whenever addPeer fails - duplicate peer id, peer table at
max_peers, either port scan exhausted, or the child sender failing to
start - it returns false and the state is exactly the state before the
call: no peer entry and no surviving reservation.  The base ports are
nonnegative, as produced by any valid configuration. -/
theorem addPeer_failure_atomic (st : PeerManagerState) (peerId : String)
    (source : CameraType) (startOk : Bool)
    (hb : 0 ≤ st.baseStreamPort) (hc : 0 ≤ st.commSocketBasePort)
    (hfail : (addPeer st peerId source startOk).1 = false) :
    (addPeer st peerId source startOk).2 = st := by
  by_cases hdup : st.peers.any (fun p => p.peerId == peerId)
  · simp [addPeer, hdup]
  by_cases hcap : st.maxPeers ≤ st.peers.length
  · simp [addPeer, hdup, hcap]
  rcases h1 : allocFirst st.portAllocated with ⟨o1, l1⟩
  rcases h2 : allocFirst st.commSocketAllocated with ⟨o2, l2⟩
  rcases o1 with _ | i
  · -- stream allocation failed; the bit-vector is unchanged
    have hl1 : l1 = st.portAllocated := allocFirst_none _ _ h1
    rcases o2 with _ | j
    · have hl2 : l2 = st.commSocketAllocated := allocFirst_none _ _ h2
      simp [addPeer, allocateStreamPort, allocateCommSocket, hdup, hcap, h1, h2, hl1, hl2]
    · -- comm succeeded and is released again
      have hcj : (0 : Int) ≤ st.commSocketBasePort + (j : Int) := by positivity
      have hrel := releaseCommSocket_restore st
        { st with commSocketAllocated := l2 } j l2 h2 rfl rfl
      simp [addPeer, allocateStreamPort, allocateCommSocket, hdup, hcap, h1, h2,
        hl1, hcj, hrel]
  · -- stream allocation succeeded
    rcases o2 with _ | j
    · -- comm failed: the stream slot is released again
      have hl2 : l2 = st.commSocketAllocated := allocFirst_none _ _ h2
      have hsi : (0 : Int) ≤ st.baseStreamPort + (i : Int) * 2 := by positivity
      have hrel := releaseStreamPort_restore st
        { st with portAllocated := l1 } i l1 h1 rfl rfl
      simp [addPeer, allocateStreamPort, allocateCommSocket, hdup, hcap, h1, h2,
        hl2, hsi, hrel]
    · -- both allocations succeeded: failure can only come from startOk
      have hsi : ¬(st.baseStreamPort + (i : Int) * 2 < 0) := by
        push_neg
        positivity
      have hcj : ¬(st.commSocketBasePort + (j : Int) < 0) := by
        push_neg
        positivity
      have hs := releaseStreamPort_restore st
        { st with portAllocated := l1, commSocketAllocated := l2 } i l1 h1 rfl rfl
      have hcm := releaseCommSocket_restore st
        { st with commSocketAllocated := l2 } j l2 h2 rfl rfl
      rcases hok : startOk with _ | _
      · simp [addPeer, allocateStreamPort, allocateCommSocket, hdup, hcap, h1, h2,
          hok, hsi, hcj, hs, hcm]
      · -- startOk: addPeer succeeds, contradicting hfail
        exfalso
        simp [addPeer, allocateStreamPort, allocateCommSocket, hdup, hcap, h1, h2,
          hok, hsi, hcj] at hfail

/-- Witness for the addPeer atomicity theorem: adding a duplicate peer id
fails and leaves the concrete state untouched. -/
theorem addPeer_failure_atomic_witness :
    ((0 : Int) ≤ c3dupState.baseStreamPort
      ∧ (0 : Int) ≤ c3dupState.commSocketBasePort
      ∧ (addPeer c3dupState "A" CameraType.RGB true).1 = false)
    ∧ (addPeer c3dupState "A" CameraType.RGB true).2 = c3dupState :=
  ⟨⟨by decide, by decide, by decide⟩,
   addPeer_failure_atomic c3dupState "A" CameraType.RGB true
     (by decide) (by decide) (by decide)⟩

/-- For a clock at least the retention past the epoch and below 2^64,
the wrapped uint64 cutoff is the plain subtraction. -/
theorem cutoffTime_eq (now : Nat) (h1 : BUFFER_DURATION_NS ≤ now) (h2 : now < U64) :
    cutoffTime now = now - BUFFER_DURATION_NS := by
  unfold cutoffTime U64 BUFFER_DURATION_NS at *
  omega

/-- On a list sorted by timestamp, dropping the too-old prefix is the
same as filtering out every too-old element. -/
theorem dropWhile_sorted_eq_filter (c : Nat) (l : List DetectionData)
    (h : l.Pairwise (fun a b => a.timestamp ≤ b.timestamp)) :
    l.dropWhile (fun d => decide (d.timestamp < c))
      = l.filter (fun d => decide (c ≤ d.timestamp)) := by
  induction l with
  | nil => rfl
  | cons hd tl ih =>
    rcases List.pairwise_cons.mp h with ⟨hall, htl⟩
    by_cases hlt : hd.timestamp < c
    · rw [List.dropWhile_cons, List.filter_cons]
      rw [if_pos (by simpa using hlt), if_neg (by simpa using hlt)]
      exact ih htl
    · rw [List.dropWhile_cons, List.filter_cons]
      rw [if_neg (by simpa using hlt), if_pos (by simpa using hlt)]
      have : tl.filter (fun d => decide (c ≤ d.timestamp)) = tl := by
        rw [List.filter_eq_self]
        intro b hb
        have h1 : hd.timestamp ≤ b.timestamp := hall b hb
        simp only [decide_eq_true_eq]
        omega
      rw [this]

/-- When every element is at least the cutoff, the eviction loop removes
nothing. -/
theorem dropWhile_ge_eq_self (c : Nat) (l : List DetectionData)
    (h : ∀ x ∈ l, c ≤ x.timestamp) :
    l.dropWhile (fun d => decide (d.timestamp < c)) = l := by
  cases l with
  | nil => rfl
  | cons hd tl =>
    rw [List.dropWhile_cons, if_neg]
    have := h hd (by simp)
    simp only [decide_eq_true_eq]
    omega

/-- Dropping a prefix never lengthens a list. -/
theorem dropWhile_length_le (p : DetectionData → Bool) (l : List DetectionData) :
    (l.dropWhile p).length ≤ l.length := by
  induction l with
  | nil => simp [List.dropWhile]
  | cons hd tl ih =>
    rw [List.dropWhile_cons]
    by_cases hp : p hd = true
    · rw [if_pos hp]
      exact le_trans ih (Nat.le_succ _)
    · rw [if_neg hp]

/-- C1 counterexample: a completed insert of a frame carrying an old
explicit timestamp (1 s) while the clock reads 1000 s leaves that frame
in the ring with age 999 s, far beyond the 120 s retention, because the
eviction loop stops at the first young frame and only ever removes a
prefix. -/
theorem detectionRing_retention_counterexample :
    ¬(∀ f ∈ (addDetection
          (addDetection emptyRgbRing ⟨1000000000000, 1, CameraType.RGB, []⟩ 1000000000000)
          ⟨1000000000, 2, CameraType.RGB, []⟩ 1000000000000).buffer,
        1000000000000 - f.timestamp ≤ BUFFER_DURATION_NS) := by
  decide

/-- C1 amended: for monotone inserts (the ring sorted by timestamp and
the new frame's effective timestamp at least every stored one - the
producer's monotone clock assumption stated by the spec), a completed
insert keeps the ring at most maxSize long, every retained frame within
retention; eviction removes exactly the frames whose age strictly
exceeds the retention, keeping frames at exactly the boundary; and an
insert into a full ring of in-retention frames evicts exactly the oldest
entry. -/
theorem detectionRing_insert_invariant (st : DetectionBufferState) (d : DetectionData)
    (now : Nat)
    (hpw : st.buffer.Pairwise (fun a b => a.timestamp ≤ b.timestamp))
    (hmono : ∀ f ∈ st.buffer, f.timestamp ≤ (effectiveDetection st d now).timestamp)
    (hlen : st.buffer.length ≤ st.maxSize)
    (hnow : BUFFER_DURATION_NS ≤ now) (hu : now < U64) :
    (addDetection st d now).buffer.length ≤ st.maxSize
    ∧ (∀ f ∈ (addDetection st d now).buffer, now - f.timestamp ≤ BUFFER_DURATION_NS)
    ∧ (addDetection st d now).buffer
        = (if st.maxSize < (st.buffer ++ [effectiveDetection st d now]).length
           then (st.buffer ++ [effectiveDetection st d now]).tail
           else st.buffer ++ [effectiveDetection st d now]).filter
            (fun f => decide (now - f.timestamp ≤ BUFFER_DURATION_NS))
    ∧ (st.buffer.length = st.maxSize → 0 < st.maxSize →
        (∀ f ∈ st.buffer, now - f.timestamp ≤ BUFFER_DURATION_NS) →
        (addDetection st d now).buffer
          = st.buffer.tail ++ [effectiveDetection st d now]) := by
  have hco : cutoffTime now = now - BUFFER_DURATION_NS := cutoffTime_eq now hnow hu
  have hpw1 : (st.buffer ++ [effectiveDetection st d now]).Pairwise
      (fun a b => a.timestamp ≤ b.timestamp) := by
    rw [List.pairwise_append]
    refine ⟨hpw, List.pairwise_singleton _ _, ?_⟩
    intro a ha b hb
    have : b = effectiveDetection st d now := by simpa using hb
    rw [this]
    exact hmono a ha
  have hpw2 : (if st.maxSize < (st.buffer ++ [effectiveDetection st d now]).length
      then (st.buffer ++ [effectiveDetection st d now]).tail
      else st.buffer ++ [effectiveDetection st d now]).Pairwise
        (fun a b => a.timestamp ≤ b.timestamp) := by
    split
    · exact List.Pairwise.sublist (List.tail_sublist _) hpw1
    · exact hpw1
  have hbuf : (addDetection st d now).buffer
      = removeOldDetections
          (if st.maxSize < (st.buffer ++ [effectiveDetection st d now]).length
           then (st.buffer ++ [effectiveDetection st d now]).tail
           else st.buffer ++ [effectiveDetection st d now]) now := rfl
  have hmain : (addDetection st d now).buffer
      = (if st.maxSize < (st.buffer ++ [effectiveDetection st d now]).length
         then (st.buffer ++ [effectiveDetection st d now]).tail
         else st.buffer ++ [effectiveDetection st d now]).filter
          (fun f => decide (now - f.timestamp ≤ BUFFER_DURATION_NS)) := by
    rw [hbuf]
    unfold removeOldDetections
    rw [dropWhile_sorted_eq_filter (cutoffTime now) _ hpw2]
    apply List.filter_congr
    intro x _
    rw [hco]
    simp only [decide_eq_decide]
    omega
  refine ⟨?_, ?_, hmain, ?_⟩
  · rw [hbuf]
    unfold removeOldDetections
    have h1 := dropWhile_length_le (fun d => decide (d.timestamp < cutoffTime now))
      (if st.maxSize < (st.buffer ++ [effectiveDetection st d now]).length
       then (st.buffer ++ [effectiveDetection st d now]).tail
       else st.buffer ++ [effectiveDetection st d now])
    have h2 : (if st.maxSize < (st.buffer ++ [effectiveDetection st d now]).length
        then (st.buffer ++ [effectiveDetection st d now]).tail
        else st.buffer ++ [effectiveDetection st d now]).length ≤ st.maxSize := by
      split <;> simp_all
    omega
  · intro f hf
    rw [hmain] at hf
    have := (List.mem_filter.mp hf).2
    simpa using this
  · intro hfull hpos hret
    rcases hsb : st.buffer with _ | ⟨hd, tl⟩
    · exfalso
      rw [hsb] at hfull
      simp at hfull
      omega
    · have hcond : st.maxSize < (st.buffer ++ [effectiveDetection st d now]).length := by
        rw [List.length_append, hfull]
        simp
      rw [hbuf, if_pos hcond, hsb]
      show removeOldDetections (tl ++ [effectiveDetection st d now]) now
        = tl ++ [effectiveDetection st d now]
      unfold removeOldDetections
      apply dropWhile_ge_eq_self
      intro x hx
      rcases List.mem_append.mp hx with hx1 | hx2
      · have : now - x.timestamp ≤ BUFFER_DURATION_NS := by
          apply hret
          rw [hsb]
          exact List.mem_cons_of_mem _ hx1
        omega
      · have hxe : x = effectiveDetection st d now := by simpa using hx2
        have h1 : hd.timestamp ≤ (effectiveDetection st d now).timestamp := by
          apply hmono
          rw [hsb]
          exact List.mem_cons_self _ _
        have h2 : now - hd.timestamp ≤ BUFFER_DURATION_NS := by
          apply hret
          rw [hsb]
          exact List.mem_cons_self _ _
        rw [hxe]
        omega

/-- Witness for the detection-ring invariant theorem: a full two-frame
sorted ring at 100 s and 150 s, clock at 200 s, inserting a frame at
180 s. -/
theorem detectionRing_insert_invariant_witness :
    (c1wRing.buffer.Pairwise (fun a b => a.timestamp ≤ b.timestamp)
      ∧ (∀ f ∈ c1wRing.buffer,
          f.timestamp ≤ (effectiveDetection c1wRing c1wFrame 200000000000).timestamp)
      ∧ c1wRing.buffer.length ≤ c1wRing.maxSize
      ∧ BUFFER_DURATION_NS ≤ 200000000000 ∧ 200000000000 < U64)
    ∧ ((addDetection c1wRing c1wFrame 200000000000).buffer.length ≤ c1wRing.maxSize
      ∧ (∀ f ∈ (addDetection c1wRing c1wFrame 200000000000).buffer,
          200000000000 - f.timestamp ≤ BUFFER_DURATION_NS)
      ∧ (addDetection c1wRing c1wFrame 200000000000).buffer
          = (if c1wRing.maxSize
                < (c1wRing.buffer ++ [effectiveDetection c1wRing c1wFrame 200000000000]).length
             then (c1wRing.buffer ++ [effectiveDetection c1wRing c1wFrame 200000000000]).tail
             else c1wRing.buffer ++ [effectiveDetection c1wRing c1wFrame 200000000000]).filter
              (fun f => decide (200000000000 - f.timestamp ≤ BUFFER_DURATION_NS))
      ∧ (c1wRing.buffer.length = c1wRing.maxSize → 0 < c1wRing.maxSize →
          (∀ f ∈ c1wRing.buffer, 200000000000 - f.timestamp ≤ BUFFER_DURATION_NS) →
          (addDetection c1wRing c1wFrame 200000000000).buffer
            = c1wRing.buffer.tail ++ [effectiveDetection c1wRing c1wFrame 200000000000])) :=
  ⟨⟨by decide, by decide, by decide, by decide, by decide⟩,
   detectionRing_insert_invariant c1wRing c1wFrame 200000000000
     (by decide) (by decide) (by decide) (by decide) (by decide)⟩

/-- The fixed-array read always yields 10 bytes. -/
theorem read10_length (data : List Nat) : (read10 data).length = 10 := by
  simp [read10]

/-- Structure of the 17-byte go-to-position frame built from 10 position
bytes and a speed byte: bytes 0-14 are the header and position data,
byte 15 is the speed, byte 16 the checksum over bytes 0-15. -/
theorem recallFrame_parts (d10 : List Nat) (s : Nat) (h : d10.length = 10) :
    (([0x96, 0x00, 0x01, 0x01, 0x0F] ++ d10 ++ [s])
        ++ [calculateChecksum ([0x96, 0x00, 0x01, 0x01, 0x0F] ++ d10 ++ [s])]).take 15
      = [0x96, 0x00, 0x01, 0x01, 0x0F] ++ d10
    ∧ (([0x96, 0x00, 0x01, 0x01, 0x0F] ++ d10 ++ [s])
        ++ [calculateChecksum ([0x96, 0x00, 0x01, 0x01, 0x0F] ++ d10 ++ [s])]).getD 15 0
      = s
    ∧ (([0x96, 0x00, 0x01, 0x01, 0x0F] ++ d10 ++ [s])
        ++ [calculateChecksum ([0x96, 0x00, 0x01, 0x01, 0x0F] ++ d10 ++ [s])]).getD 16 0
      = calculateChecksum
          ((([0x96, 0x00, 0x01, 0x01, 0x0F] ++ d10 ++ [s])
            ++ [calculateChecksum ([0x96, 0x00, 0x01, 0x01, 0x0F] ++ d10 ++ [s])]).take 16)
    ∧ (([0x96, 0x00, 0x01, 0x01, 0x0F] ++ d10 ++ [s])
        ++ [calculateChecksum ([0x96, 0x00, 0x01, 0x01, 0x0F] ++ d10 ++ [s])]).length
      = 17 := by
  rcases d10 with _ | ⟨a0, d10⟩
  · simp at h
  rcases d10 with _ | ⟨a1, d10⟩
  · simp at h
  rcases d10 with _ | ⟨a2, d10⟩
  · simp at h
  rcases d10 with _ | ⟨a3, d10⟩
  · simp at h
  rcases d10 with _ | ⟨a4, d10⟩
  · simp at h
  rcases d10 with _ | ⟨a5, d10⟩
  · simp at h
  rcases d10 with _ | ⟨a6, d10⟩
  · simp at h
  rcases d10 with _ | ⟨a7, d10⟩
  · simp at h
  rcases d10 with _ | ⟨a8, d10⟩
  · simp at h
  rcases d10 with _ | ⟨a9, d10⟩
  · simp at h
  rcases d10 with _ | ⟨a10, d10⟩
  · exact ⟨rfl, rfl, rfl, rfl⟩
  · simp at h

/-- On an in-range index whose preset is set, recall yields exactly the
17-byte frame: header, the 10 stored bytes, the flag-dependent speed
byte, and the checksum. -/
theorem moveToPTZPosition_eq (st : PTZState) (index : Int) (c : Bool)
    (hidx : ¬(index < 0 ∨ (MAX_PTZ_PRESET : Int) ≤ index))
    (hset : (st.ptzPositions.getD index.toNat ⟨false, []⟩).isSet = true) :
    moveToPTZPosition st index c
      = some (([0x96, 0x00, 0x01, 0x01, 0x0F]
            ++ read10 (st.ptzPositions.getD index.toNat ⟨false, []⟩).data
            ++ [if c then (0x20 : Nat) else 0x40])
          ++ [calculateChecksum ([0x96, 0x00, 0x01, 0x01, 0x0F]
            ++ read10 (st.ptzPositions.getD index.toNat ⟨false, []⟩).data
            ++ [if c then (0x20 : Nat) else 0x40])]) := by
  rw [List.getD_eq_getElem?_getD] at hset
  simp [moveToPTZPosition, selectPresetTable, hidx, hset]

/-- On an in-range index whose preset is not set, recall fails with no
frame. -/
theorem moveToPTZPosition_eq_none (st : PTZState) (index : Int) (c : Bool)
    (hidx : ¬(index < 0 ∨ (MAX_PTZ_PRESET : Int) ≤ index))
    (hset : (st.ptzPositions.getD index.toNat ⟨false, []⟩).isSet = false) :
    moveToPTZPosition st index c = none := by
  rw [List.getD_eq_getElem?_getD] at hset
  simp [moveToPTZPosition, selectPresetTable, hidx, hset]

/-- C10: the auto_mode flag never selects a different preset table -
capture (updatePTZPosition) writes the same slot of ptzPositions_ for
both flag values and leaves the 32-entry ranch table untouched, and
recall (moveToPTZPosition) reads the same table and succeeds for one
flag value exactly when it does for the other; the two recall frames
agree on bytes 0-14, differ only in the speed byte (0x20 when auto,
0x40 when manual) at index 15, and byte 16 is the checksum determined by
bytes 0-15. -/
theorem ptzPreset_auto_mode (st : PTZState) (index : Int)
    (posData : Option (List Nat)) (a b : Bool) :
    selectPresetTable st a = st.ptzPositions
    ∧ updatePTZPosition st index posData a = updatePTZPosition st index posData b
    ∧ (updatePTZPosition st index posData a).2.ranchPositions = st.ranchPositions
    ∧ (moveToPTZPosition st index a).isSome = (moveToPTZPosition st index b).isSome
    ∧ (moveToPTZPosition st index a).map (fun f => f.take 15)
        = (moveToPTZPosition st index b).map (fun f => f.take 15)
    ∧ (moveToPTZPosition st index a).map (fun f => f.getD 15 0)
        = (moveToPTZPosition st index a).map
            (fun _ => if a then (0x20 : Nat) else 0x40)
    ∧ (moveToPTZPosition st index a).map (fun f => f.getD 16 0)
        = (moveToPTZPosition st index a).map (fun f => calculateChecksum (f.take 16))
    ∧ (moveToPTZPosition st index a).map (fun f => f.length)
        = (moveToPTZPosition st index a).map (fun _ => 17) := by
  have hsel : ∀ c : Bool, selectPresetTable st c = st.ptzPositions := by
    intro c
    unfold selectPresetTable
    exact ite_self _
  by_cases hidx : index < 0 ∨ (MAX_PTZ_PRESET : Int) ≤ index
  · refine ⟨hsel a, ?_, ?_, ?_, ?_, ?_, ?_, ?_⟩ <;>
      cases posData <;>
      simp [updatePTZPosition, moveToPTZPosition, hidx]
  · have hparts := fun (c : Bool) =>
      recallFrame_parts
        (read10 ((st.ptzPositions.getD index.toNat ⟨false, []⟩).data))
        (if c then (0x20 : Nat) else 0x40)
        (read10_length _)
    by_cases hset : (st.ptzPositions.getD index.toNat ⟨false, []⟩).isSet
    · have hea := moveToPTZPosition_eq st index a hidx hset
      have heb := moveToPTZPosition_eq st index b hidx hset
      refine ⟨hsel a, ?_, ?_, ?_, ?_, ?_, ?_, ?_⟩
      · cases posData <;> simp [updatePTZPosition, hsel]
      · cases posData with
        | none => rfl
        | some pd =>
          simp only [updatePTZPosition, hsel]
          split <;> rfl
      · rw [hea, heb]
        rfl
      · rw [hea, heb, Option.map_some', Option.map_some']
        exact congrArg some ((hparts a).1.trans (hparts b).1.symm)
      · rw [hea, Option.map_some', Option.map_some']
        exact congrArg some (hparts a).2.1
      · rw [hea, Option.map_some', Option.map_some']
        exact congrArg some (hparts a).2.2.1
      · rw [hea, Option.map_some', Option.map_some']
        exact congrArg some (hparts a).2.2.2
    · have hset0 : (st.ptzPositions.getD index.toNat ⟨false, []⟩).isSet = false := by
        simpa using hset
      have hea := moveToPTZPosition_eq_none st index a hidx hset0
      have heb := moveToPTZPosition_eq_none st index b hidx hset0
      refine ⟨hsel a, ?_, ?_, ?_, ?_, ?_, ?_, ?_⟩
      · cases posData <;> simp [updatePTZPosition, hsel]
      · cases posData with
        | none => rfl
        | some pd =>
          simp only [updatePTZPosition, hsel]
          split <;> rfl
      all_goals simp [hea, heb]

end SmartCow
